import Mathlib

/-!
Shallow embedding of `src/app/api/convert-document/route.ts`: the CloudConvert
document-conversion orchestrator `performCloudConversion` and the `POST`
endpoint handler built on it.  External collaborators (the CloudConvert SDK,
the filesystem temp store, HTTP fetch) are modelled by an explicit
per-invocation environment record; JavaScript truthiness on optional strings
is modelled explicitly.
-/

namespace ConvDoc

/-- JavaScript falsiness of an optional string: `undefined`/`null` or `""`. -/
def strFalsy : Option String → Bool
  | none => true
  | some s => s = ""

/-- JavaScript `a || b` for an optional string `a` with fallback `b`:
the fallback is taken when `a` is absent or empty. -/
def jsOrStr (a : Option String) (b : String) : String :=
  match a with
  | none => b
  | some s => if s = "" then b else s

/-- One result-file descriptor of an export task (`task.result.files[i]`). -/
structure ResultFile where
  url : Option String
  filename : Option String
deriving Repr, DecidableEq

/-- The `result` field of a CloudConvert task. -/
structure TaskResult where
  files : Option (List ResultFile)
deriving Repr, DecidableEq

/-- A CloudConvert task as observed through the SDK; every field the route
reads may be absent in the JSON payload, hence the `Option`s. -/
structure CCTask where
  name : Option String
  id : Option String
  status : Option String
  message : Option String
  result : Option TaskResult
deriving Repr, DecidableEq

/-- A CloudConvert job as observed through the SDK. -/
structure CCJob where
  id : Option String
  status : Option String
  message : Option String
  tasks : Option (List CCTask)
deriving Repr, DecidableEq

/-- The part of a `fetch` response the route inspects, plus the body bytes
that `arrayBuffer()` would produce. -/
structure DownloadResponse where
  ok : Bool
  hasBody : Bool
  statusText : String
  bytes : List Nat
deriving Repr, DecidableEq

/-- The uploaded file: its client-reported name and payload bytes. -/
structure InputFile where
  name : String
  bytes : List Nat
deriving Repr, DecidableEq

/-- One invocation's view of the external collaborators: what each awaited
remote call returns (`Except.error` models a thrown exception carrying the
thrown error's `message`). -/
structure CloudEnv where
  createJob : Except String CCJob
  uploadResult : Except String Unit
  waitResult : Except String CCJob
  fetchResult : Option String → Except String DownloadResponse
  tmpDirPath : String

/-- The five failure stages of the conversion pipeline; in the embedding each
tag identifies the throw site inside `performCloudConversion`'s `try` block. -/
inductive CCStage
  | jobCreation
  | upload
  | remoteProcessing
  | exportMissing
  | download
deriving Repr, DecidableEq

/-- An error thrown inside the `try` block: the throw site's stage and the
error's message string. -/
structure CCError where
  stage : CCStage
  msg : String
deriving Repr, DecidableEq

/-- The value returned on success (`{ convertedFileBuffer, convertedFileName }`). -/
structure ConversionResult where
  convertedFileBuffer : List Nat
  convertedFileName : String
deriving Repr, DecidableEq

/-- Outcome of one run of the `try` block: the returned value or the thrown
error, together with whether the staging temp directory (created by
`fs.mkdtemp`) still exists on the filesystem afterwards. -/
structure CCOutcome where
  result : Except CCError ConversionResult
  tempDirExists : Bool
deriving Repr

/-- Predicate for `task.name === nm` (a strict equality on a possibly absent
field). -/
def isTaskNamed (nm : String) (t : CCTask) : Bool :=
  t.name = some nm

/-- Predicate for `task.status === 'error'`. -/
def isErrorStatus (t : CCTask) : Bool :=
  t.status = some "error"

/-- `job.tasks?.find(task => task.name === 'import-file')` (route.ts line 67). -/
def findImportTask (j : CCJob) : Option CCTask :=
  (j.tasks.getD []).find? (isTaskNamed "import-file")

/-- `completedJob.tasks?.find(t => t.status === 'error')` (route.ts line 86). -/
def firstErrorTask (j : CCJob) : Option CCTask :=
  (j.tasks.getD []).find? isErrorStatus

/-- `completedJob.tasks?.find(task => task.name === 'export-file')` (route.ts line 91). -/
def findExportTask (j : CCJob) : Option CCTask :=
  (j.tasks.getD []).find? (isTaskNamed "export-file")

/-- The result-file descriptors a task carries (empty when `result` or
`result.files` is absent). -/
def taskResultFiles (t : CCTask) : List ResultFile :=
  (t.result.bind TaskResult.files).getD []

/-- Index of the last occurrence of a character in a list, if any. -/
def lastIdxOf (c : Char) : List Char → Option Nat
  | [] => none
  | x :: xs =>
    match lastIdxOf c xs with
    | some i => some (i + 1)
    | none => if x = c then some 0 else none

/-- Model of Node's `path.parse(s).name` for a plain basename: everything
from the last dot on is stripped, except when that dot is the first
character (hidden files) or the name is `"."` or `".."`. -/
def pathParseName (s : String) : String :=
  if s = "." ∨ s = ".." then s
  else
    match lastIdxOf '.' s.data with
    | none => s
    | some 0 => s
    | some i => String.mk (s.data.take i)

/-- The synthesized output filename used when the export descriptor carries no
filename (route.ts line 98): the original name without its extension, a dot,
and the raw target format. -/
def synthesizedName (originalName targetFormat : String) : String :=
  pathParseName originalName ++ "." ++ targetFormat

/-- Shallow embedding of route.ts lines 85-108: the part of the `try` block
that runs once `jobs.wait` has returned a completed job.  The temp directory
was already removed at line 80, so it no longer exists on any of these
paths. -/
def afterCompletion (env : CloudEnv) (inputFile : InputFile)
    (targetFormat : String) (completedJob : CCJob) : CCOutcome :=
  if completedJob.status = some "error" then
    ⟨.error ⟨.remoteProcessing,
      "CloudConvert job failed: " ++
        jsOrStr ((firstErrorTask completedJob).bind CCTask.message)
          (jsOrStr completedJob.message "Unknown error")⟩, false⟩
  else
    match findExportTask completedJob with
    | none =>
      ⟨.error ⟨.exportMissing,
        "CloudConvert export task failed or did not produce a file."⟩, false⟩
    | some exportTask =>
      if exportTask.status = some "finished" then
        match (taskResultFiles exportTask).head? with
        | none =>
          ⟨.error ⟨.exportMissing,
            "CloudConvert export task failed or did not produce a file."⟩, false⟩
        | some resultFile =>
          match env.fetchResult resultFile.url with
          | .error m => ⟨.error ⟨.download, m⟩, false⟩
          | .ok resp =>
            if resp.ok && resp.hasBody then
              ⟨.ok ⟨resp.bytes,
                jsOrStr resultFile.filename
                  (synthesizedName inputFile.name targetFormat)⟩, false⟩
            else
              ⟨.error ⟨.download,
                "Failed to download converted file from CloudConvert: " ++
                  resp.statusText⟩, false⟩
      else
        ⟨.error ⟨.exportMissing,
          "CloudConvert export task failed or did not produce a file."⟩, false⟩

/-- Shallow embedding of the `try` block of `performCloudConversion`
(route.ts lines 43-108).  Each awaited external call is read off the
environment; the boolean in the outcome tracks whether the `mkdtemp`
directory holding the staged payload still exists when the block exits.
Note that `fs.rm(tempDir, ...)` (line 80) runs only after a successful
upload, and the surrounding `catch` performs no filesystem cleanup. -/
def performCloudConversionBody (env : CloudEnv) (inputFile : InputFile)
    (targetFormat : String) : CCOutcome :=
  match env.createJob with
  | .error m => ⟨.error ⟨.jobCreation, m⟩, false⟩
  | .ok job =>
    match findImportTask job with
    | none => ⟨.error ⟨.upload, "CloudConvert upload task not found in job."⟩, false⟩
    | some uploadTask =>
      if strFalsy uploadTask.id then
        ⟨.error ⟨.upload, "CloudConvert upload task not found in job."⟩, false⟩
      else
        -- `mkdtemp` and `writeFile` (lines 74-76): the temp dir now exists.
        match env.uploadResult with
        | .error m => ⟨.error ⟨.upload, m⟩, true⟩
        | .ok () =>
          -- `fs.rm(tempDir, { recursive: true, force: true })` (line 80).
          match env.waitResult with
          | .error m => ⟨.error ⟨.remoteProcessing, m⟩, false⟩
          | .ok completedJob =>
            afterCompletion env inputFile targetFormat completedJob

/-- Shallow embedding of `performCloudConversion` including its `catch` block
(route.ts lines 110-114): any error thrown inside the `try` block is rethrown
as a plain `Error` whose message carries a fixed prefix, with no stage tag.
The boolean records whether the staging temp directory exists afterwards. -/
def performCloudConversion (env : CloudEnv) (inputFile : InputFile)
    (targetFormat : String) : Except String ConversionResult × Bool :=
  let o := performCloudConversionBody env inputFile targetFormat
  match o.result with
  | .ok r => (.ok r, o.tempDirExists)
  | .error e => (.error ("CloudConvert processing failed: " ++ e.msg), o.tempDirExists)

/-- Model of JavaScript's `toLowerCase()` on the ASCII format strings the
route handles, written over the character list (the same map Lean's
`String.toLower` performs) so that it reduces by computation. -/
def jsToLowerCase (s : String) : String :=
  ⟨s.data.map Char.toLower⟩

/-- The fixed format-to-MIME-type table `EXT_TO_MIMETYPE` (route.ts lines 20-30). -/
def EXT_TO_MIMETYPE : String → Option String
  | "pdf" => some "application/pdf"
  | "docx" => some "application/vnd.openxmlformats-officedocument.wordprocessingml.document"
  | "txt" => some "text/plain"
  | "html" => some "text/html"
  | "odt" => some "application/vnd.oasis.opendocument.text"
  | "pptx" => some "application/vnd.openxmlformats-officedocument.presentationml.presentation"
  | "jpg" => some "image/jpeg"
  | "png" => some "image/png"
  | _ => none

/-- The allow-list of output formats the endpoint accepts (route.ts line 33). -/
def SUPPORTED_DOC_OUTPUT_FORMATS_API : List String :=
  ["pdf", "docx", "txt", "html", "odt", "pptx", "jpg", "png"]

/-- The multipart form fields the handler reads; each may be absent. -/
structure FormData where
  document : Option InputFile
  targetFormat : Option String
  inputFileName : Option String

/-- The body of an HTTP response: a JSON error object or binary bytes. -/
inductive HttpBody
  | json (error : String) (details : Option String)
  | binary (bytes : List Nat)
deriving Repr, DecidableEq

/-- The parts of a `NextResponse` the handler sets. -/
structure HttpResponse where
  status : Nat
  contentType : Option String
  contentDisposition : Option String
  body : HttpBody
deriving Repr, DecidableEq

/-- Rendering of a possibly-null string in a template literal (JS prints
`null` for a null value). -/
def showNullable : Option String → String
  | none => "null"
  | some s => s

/-- Shallow embedding of the `POST` handler (route.ts lines 118-166), after
the multipart form has been parsed successfully.  Returns the response
together with a flag recording whether `performCloudConversion` was invoked.
`apiKeyConfigured` models the presence of `process.env.CLOUDCONVERT_API_KEY`. -/
def POST (apiKeyConfigured : Bool) (env : CloudEnv) (form : FormData) :
    HttpResponse × Bool :=
  if !apiKeyConfigured then
    (⟨500, none, none,
      .json "Server configuration error for conversion service." none⟩, false)
  else if form.document.isNone || strFalsy form.inputFileName then
    (⟨400, none, none, .json "No document file provided." none⟩, false)
  else if strFalsy form.targetFormat ||
      !(SUPPORTED_DOC_OUTPUT_FORMATS_API.contains
          (jsToLowerCase (form.targetFormat.getD ""))) then
    (⟨400, none, none,
      .json ("Unsupported target format: " ++ showNullable form.targetFormat)
        none⟩, false)
  else
    let documentFile := form.document.getD ⟨"", []⟩
    let targetFormat := form.targetFormat.getD ""
    match performCloudConversion env documentFile targetFormat with
    | (.ok r, _) =>
      let mimeType :=
        (EXT_TO_MIMETYPE (jsToLowerCase targetFormat)).getD "application/octet-stream"
      (⟨200, some mimeType,
        some ("attachment; filename=\"" ++ r.convertedFileName ++ "\""),
        .binary r.convertedFileBuffer⟩, true)
    | (.error m, _) =>
      (⟨500, none, none, .json m none⟩, true)

/-- True when the outcome is an error thrown at stage `s`. -/
def failsAtStage (o : CCOutcome) (s : CCStage) : Bool :=
  match o.result with
  | .error e => e.stage = s
  | .ok _ => false

/-- The export-resolution guard of route.ts line 92, phrased as the claim
states it: the export task is absent, or its status is not `finished`, or it
carries no result-file descriptors. -/
def exportResolutionBad (cj : CCJob) : Bool :=
  match findExportTask cj with
  | none => true
  | some t => !(t.status = some "finished") || (taskResultFiles t).isEmpty

/-- The caller-side validation of route.ts lines 133-138, phrased as the
claim states it: the payload file and original filename are present and the
lowercased target format is in the allow-list. -/
def requestPassesValidation (form : FormData) : Bool :=
  form.document.isSome && form.inputFileName.isSome &&
    (match form.targetFormat with
     | none => false
     | some t => SUPPORTED_DOC_OUTPUT_FORMATS_API.contains (jsToLowerCase t))

/-- True when the response body is a JSON error object. -/
def isJsonError : HttpBody → Bool
  | .json _ _ => true
  | .binary _ => false

/-! Concrete fixtures used by counterexamples and witnesses. -/

/-- A created job's import task, as the SDK returns it. -/
def importTaskFx : CCTask :=
  ⟨some "import-file", some "task-import-1", some "waiting", none, none⟩

/-- A freshly created job carrying the import task. -/
def createdJobFx : CCJob :=
  ⟨some "job-1", some "created", none, some [importTaskFx]⟩

/-- A finished export task with one named result file. -/
def exportOkTaskFx : CCTask :=
  ⟨some "export-file", some "task-export-1", some "finished", none,
    some ⟨some [⟨some "https://storage.cloudconvert.com/out", some "out.pdf"⟩]⟩⟩

/-- A finished job carrying the finished export task. -/
def finishedJobFx : CCJob :=
  ⟨some "job-1", some "finished", none, some [exportOkTaskFx]⟩

/-- An environment in which every stage succeeds and the download returns
three bytes. -/
def goodEnvFx : CloudEnv :=
  ⟨.ok createdJobFx, .ok (), .ok finishedJobFx,
    fun _ => .ok ⟨true, true, "OK", [1, 2, 3]⟩, "/tmp/cc-upload-aaa111"⟩

/-- An environment in which job creation succeeds and the upload throws. -/
def uploadFailEnvFx : CloudEnv :=
  ⟨.ok createdJobFx, .error "socket hang up", .error "unreachable",
    fun _ => .error "unreachable", "/tmp/cc-upload-bbb222"⟩

/-- An environment in which every stage succeeds but the downloaded body is
empty (an HTTP 200 with zero bytes). -/
def emptyDownloadEnvFx : CloudEnv :=
  ⟨.ok createdJobFx, .ok (), .ok finishedJobFx,
    fun _ => .ok ⟨true, true, "OK", []⟩, "/tmp/cc-upload-ccc333"⟩

/-- A convert task that failed remotely with the unsupported-format message. -/
def errTaskFx : CCTask :=
  ⟨some "convert", some "task-convert-1", some "error",
    some "Unsupported output format", none⟩

/-- A job whose terminal status is `error`, carrying the failed convert task. -/
def errJobFx : CCJob :=
  ⟨some "job-1", some "error", some "job level message", some [errTaskFx]⟩

/-- An environment in which the job completes with terminal status `error`. -/
def errEnvFx : CloudEnv :=
  ⟨.ok createdJobFx, .ok (), .ok errJobFx,
    fun _ => .error "unreachable", "/tmp/cc-upload-ddd444"⟩

/-- A finished export task whose single result file carries no filename. -/
def exportNoNameTaskFx : CCTask :=
  ⟨some "export-file", some "task-export-1", some "finished", none,
    some ⟨some [⟨some "https://storage.cloudconvert.com/out", none⟩]⟩⟩

/-- A finished job whose export descriptor lacks a filename. -/
def noNameJobFx : CCJob :=
  ⟨some "job-1", some "finished", none, some [exportNoNameTaskFx]⟩

/-- An environment whose export descriptor lacks a filename and whose
download returns one byte. -/
def synthEnvFx : CloudEnv :=
  ⟨.ok createdJobFx, .ok (), .ok noNameJobFx,
    fun _ => .ok ⟨true, true, "OK", [5]⟩, "/tmp/cc-upload-eee555"⟩

/-- A finished export task whose result-file list is empty. -/
def emptyExportTaskFx : CCTask :=
  ⟨some "export-file", some "task-export-1", some "finished", none,
    some ⟨some []⟩⟩

/-- A job that finished but whose export task produced no files. -/
def emptyExportJobFx : CCJob :=
  ⟨some "job-1", some "finished", none, some [emptyExportTaskFx]⟩

/-- An environment whose completed job has a finished export task with an
empty result-file list. -/
def emptyExportEnvFx : CloudEnv :=
  ⟨.ok createdJobFx, .ok (), .ok emptyExportJobFx,
    fun _ => .error "unreachable", "/tmp/cc-upload-fff666"⟩

/-- A valid multipart form: a document, an uppercase target format, and the
original filename. -/
def formOkFx : FormData :=
  ⟨some ⟨"report.docx", [9]⟩, some "pdf", some "report.docx"⟩

/-- A form whose target format is not in the allow-list. -/
def formBadFormatFx : FormData :=
  ⟨some ⟨"report.docx", [9]⟩, some "exe", some "report.docx"⟩

/-! Helper lemmas. -/

/-- When the optional string is JavaScript-falsy, `a || b` yields `b`. -/
theorem jsOrStr_of_falsy (a : Option String) (b : String)
    (ha : strFalsy a = true) : jsOrStr a b = b := by
  cases a with
  | none => rfl
  | some s =>
    have hs : s = "" := by simpa [strFalsy] using ha
    simp [jsOrStr, hs]

/-- `a || b` is non-empty whenever the fallback is. -/
theorem jsOrStr_ne_empty (a : Option String) (b : String) (hb : b ≠ "") :
    jsOrStr a b ≠ "" := by
  cases a with
  | none => exact hb
  | some s =>
    by_cases hs : s = ""
    · simpa [jsOrStr, hs] using hb
    · simp [jsOrStr, hs]

/-- The synthesized filename always contains a dot, hence is non-empty. -/
theorem synthesizedName_ne_empty (o tf : String) : synthesizedName o tf ≠ "" := by
  intro h
  have hlen : (synthesizedName o tf).length = 0 := by rw [h]; rfl
  rw [synthesizedName, String.length_append, String.length_append] at hlen
  have hdot : (".").length = 1 := rfl
  omega

/-- C1: the spec claims the mkdtemp staging directory is removed on every
exit path of `performCloudConversion`.  The code removes it only after a
successful upload (route.ts line 80) and its `catch` block does no cleanup,
so when job creation succeeds and the upload throws, the call fails with the
directory (and the payload file inside it) still on disk. -/
theorem C1_upload_failure_leaks_tempDir :
    (performCloudConversion uploadFailEnvFx ⟨"report.docx", [1, 2, 3]⟩ "pdf").2 = true ∧
    (performCloudConversion uploadFailEnvFx ⟨"report.docx", [1, 2, 3]⟩ "pdf").1 =
      .error "CloudConvert processing failed: socket hang up" :=
  ⟨rfl, rfl⟩

/-- C2 counterexample: with every remote stage succeeding and the download
returning an HTTP 200 whose body holds zero bytes, the orchestrator returns
a success whose byte sequence is empty — the claim that it never returns an
empty success is false on the code. -/
theorem C2_counterexample_empty_success :
    (performCloudConversionBody emptyDownloadEnvFx ⟨"report.docx", [9]⟩ "pdf").result =
      .ok ⟨[], "out.pdf"⟩ ∧
    (performCloudConversion emptyDownloadEnvFx ⟨"report.docx", [9]⟩ "pdf").1 =
      .ok ⟨[], "out.pdf"⟩ :=
  ⟨rfl, rfl⟩

/-- C2 (amended): the orchestrator either fails at one of the five stages or
returns a result whose fileName is non-empty; the returned bytes are exactly
the downloaded body, which the code never length-checks, so they may be
empty. -/
theorem C2_success_has_nonempty_fileName (env : CloudEnv) (f : InputFile)
    (tf : String) (r : ConversionResult)
    (h : (performCloudConversionBody env f tf).result = .ok r) :
    r.convertedFileName ≠ "" := by
  unfold performCloudConversionBody afterCompletion at h
  repeat' split at h
  all_goals simp_all
  subst h
  exact jsOrStr_ne_empty _ _ (synthesizedName_ne_empty _ _)

/-- C2 witness: the amended theorem applied to a concrete all-success run. -/
theorem C2_success_has_nonempty_fileName_witness :
    (performCloudConversionBody goodEnvFx ⟨"report.docx", [9]⟩ "pdf").result =
      .ok ⟨[1, 2, 3], "out.pdf"⟩ ∧ ("out.pdf" : String) ≠ "" :=
  ⟨rfl, C2_success_has_nonempty_fileName goodEnvFx ⟨"report.docx", [9]⟩ "pdf"
    ⟨[1, 2, 3], "out.pdf"⟩ rfl⟩

/-- Once job creation, import-task lookup and the upload have succeeded and
the wait has returned a completed job, the run continues with the
post-completion stage. -/
theorem body_after_wait (env : CloudEnv) (f : InputFile) (tf : String)
    (job : CCJob) (ut : CCTask) (cj : CCJob)
    (h1 : env.createJob = .ok job)
    (h2 : findImportTask job = some ut)
    (h3 : strFalsy ut.id = false)
    (h4 : env.uploadResult = .ok ())
    (h5 : env.waitResult = .ok cj) :
    performCloudConversionBody env f tf = afterCompletion env f tf cj := by
  simp [performCloudConversionBody, h1, h2, h3, h4, h5]

/-- C3: when the completed job's terminal status is `error`, the orchestrator
fails at the remote-processing throw site with a cause preferring the first
error-status task's message, then the job-level message, then the generic
"Unknown error"; when the first error-status task's message is "Unsupported
output format", the escaping error message contains it verbatim. -/
theorem C3_error_status_message_preference (env : CloudEnv) (f : InputFile)
    (tf : String) (job : CCJob) (ut : CCTask) (cj : CCJob)
    (h1 : env.createJob = .ok job)
    (h2 : findImportTask job = some ut)
    (h3 : strFalsy ut.id = false)
    (h4 : env.uploadResult = .ok ())
    (h5 : env.waitResult = .ok cj)
    (h6 : cj.status = some "error") :
    (performCloudConversionBody env f tf).result =
      .error ⟨.remoteProcessing,
        "CloudConvert job failed: " ++
          jsOrStr ((firstErrorTask cj).bind CCTask.message)
            (jsOrStr cj.message "Unknown error")⟩ ∧
    ((firstErrorTask cj).bind CCTask.message = some "Unsupported output format" →
      ∃ pre post, (performCloudConversion env f tf).1 =
        .error (pre ++ "Unsupported output format" ++ post)) := by
  have hbody : (performCloudConversionBody env f tf).result =
      .error ⟨.remoteProcessing,
        "CloudConvert job failed: " ++
          jsOrStr ((firstErrorTask cj).bind CCTask.message)
            (jsOrStr cj.message "Unknown error")⟩ := by
    rw [body_after_wait env f tf job ut cj h1 h2 h3 h4 h5]
    simp [afterCompletion, h6]
  refine ⟨hbody,
    fun hm => ⟨"CloudConvert processing failed: CloudConvert job failed: ", "", ?_⟩⟩
  rw [hm] at hbody
  have hred : jsOrStr (some "Unsupported output format")
      (jsOrStr cj.message "Unknown error") = "Unsupported output format" := rfl
  rw [hred] at hbody
  simp only [performCloudConversion, hbody]
  rfl

/-- C3 witness: the theorem applied to a concrete completed-with-error job
whose convert task failed with message "Unsupported output format". -/
theorem C3_error_status_message_preference_witness :
    (performCloudConversionBody errEnvFx ⟨"report.docx", [9]⟩ "pdf").result =
      .error ⟨.remoteProcessing, "CloudConvert job failed: Unsupported output format"⟩ ∧
    (∃ pre post, (performCloudConversion errEnvFx ⟨"report.docx", [9]⟩ "pdf").1 =
      .error (pre ++ "Unsupported output format" ++ post)) := by
  have h := C3_error_status_message_preference errEnvFx ⟨"report.docx", [9]⟩ "pdf"
    createdJobFx importTaskFx errJobFx rfl rfl rfl rfl rfl rfl
  exact ⟨h.1, h.2 rfl⟩

/-- C4: for a completed job whose terminal status is not `error`, the
orchestrator fails at the export-missing throw site exactly when the task
named `export-file` is absent, or its status is not `finished`, or it
carries no result-file descriptors (including a finished export task with an
empty result list); and when that guard trips the failure is not
remote-processing. -/
theorem C4_export_missing_iff (env : CloudEnv) (f : InputFile) (tf : String)
    (job : CCJob) (ut : CCTask) (cj : CCJob)
    (h1 : env.createJob = .ok job)
    (h2 : findImportTask job = some ut)
    (h3 : strFalsy ut.id = false)
    (h4 : env.uploadResult = .ok ())
    (h5 : env.waitResult = .ok cj)
    (h6 : ¬(cj.status = some "error")) :
    (failsAtStage (performCloudConversionBody env f tf) .exportMissing =
      exportResolutionBad cj) ∧
    (exportResolutionBad cj = true →
      failsAtStage (performCloudConversionBody env f tf) .remoteProcessing = false) := by
  rw [body_after_wait env f tf job ut cj h1 h2 h3 h4 h5]
  cases hexp : findExportTask cj with
  | none =>
    constructor <;>
      simp [afterCompletion, h6, hexp, failsAtStage, exportResolutionBad]
  | some et =>
    by_cases hst : et.status = some "finished"
    · cases hfl : taskResultFiles et with
      | nil =>
        constructor <;>
          simp [afterCompletion, h6, hexp, hst, hfl, failsAtStage, exportResolutionBad]
      | cons rf rest =>
        cases hfetch : env.fetchResult rf.url with
        | error m =>
          constructor <;>
            simp [afterCompletion, h6, hexp, hst, hfl, hfetch, failsAtStage,
              exportResolutionBad]
        | ok resp =>
          by_cases hok : (resp.ok && resp.hasBody) = true
          · constructor <;>
              simp [afterCompletion, h6, hexp, hst, hfl, hfetch, hok, failsAtStage,
                exportResolutionBad]
          · constructor <;>
              simp [afterCompletion, h6, hexp, hst, hfl, hfetch, hok, failsAtStage,
                exportResolutionBad]
    · constructor <;>
        simp [afterCompletion, h6, hexp, hst, failsAtStage, exportResolutionBad]

/-- C4 witness: the theorem applied to a concrete run whose finished export
task carries an empty result-file list. -/
theorem C4_export_missing_iff_witness :
    failsAtStage (performCloudConversionBody emptyExportEnvFx ⟨"report.docx", [9]⟩ "pdf")
        .exportMissing = exportResolutionBad emptyExportJobFx ∧
    exportResolutionBad emptyExportJobFx = true := by
  have h := C4_export_missing_iff emptyExportEnvFx ⟨"report.docx", [9]⟩ "pdf"
    createdJobFx importTaskFx emptyExportJobFx rfl rfl rfl rfl rfl (by decide)
  exact ⟨h.1, rfl⟩

/-- C5: when the run reaches a finished export task whose first result-file
descriptor carries no filename, any returned success carries the synthesized
filename — the original name without its extension, a dot, and the raw
target format — and for "report.docx" converted to "pdf" the synthesized
name is "report.pdf". -/
theorem C5_synthesized_filename (env : CloudEnv) (f : InputFile) (tf : String)
    (job : CCJob) (ut : CCTask) (cj : CCJob) (et : CCTask) (rf : ResultFile)
    (h1 : env.createJob = .ok job)
    (h2 : findImportTask job = some ut)
    (h3 : strFalsy ut.id = false)
    (h4 : env.uploadResult = .ok ())
    (h5 : env.waitResult = .ok cj)
    (h6 : ¬(cj.status = some "error"))
    (h7 : findExportTask cj = some et)
    (h8 : et.status = some "finished")
    (h9 : (taskResultFiles et).head? = some rf)
    (h10 : strFalsy rf.filename = true) :
    (∀ r, (performCloudConversionBody env f tf).result = .ok r →
      r.convertedFileName = synthesizedName f.name tf) ∧
    synthesizedName "report.docx" "pdf" = "report.pdf" := by
  constructor
  · intro r hr
    rw [body_after_wait env f tf job ut cj h1 h2 h3 h4 h5] at hr
    simp only [afterCompletion] at hr
    rw [if_neg h6, h7] at hr
    simp only [h8, h9] at hr
    rw [jsOrStr_of_falsy rf.filename _ h10] at hr
    cases hfetch : env.fetchResult rf.url with
    | error m => rw [hfetch] at hr; simp at hr
    | ok resp =>
      rw [hfetch] at hr
      by_cases hok : (resp.ok && resp.hasBody) = true
      · simp [hok] at hr
        rw [← hr]
      · simp [hok] at hr
  · rfl

/-- C5 witness: the theorem applied to a concrete run whose export descriptor
lacks a filename; the success filename is the synthesized "report.pdf". -/
theorem C5_synthesized_filename_witness :
    (performCloudConversionBody synthEnvFx ⟨"report.docx", [9]⟩ "pdf").result =
      .ok ⟨[5], "report.pdf"⟩ ∧
    (ConversionResult.mk [5] "report.pdf").convertedFileName =
      synthesizedName "report.docx" "pdf" := by
  have h := C5_synthesized_filename synthEnvFx ⟨"report.docx", [9]⟩ "pdf"
    createdJobFx importTaskFx noNameJobFx exportNoNameTaskFx
    ⟨some "https://storage.cloudconvert.com/out", none⟩
    rfl rfl rfl rfl rfl (by decide) rfl rfl rfl rfl
  exact ⟨rfl, h.1 ⟨[5], "report.pdf"⟩ rfl⟩

/-- C6: requests failing the caller-side validation (missing payload file or
original filename, or a lowercased target format outside the allow-list) are
answered with a 400 JSON error and the orchestrator is never invoked; the
orchestrator runs only on requests that pass the validation. -/
theorem C6_validation_before_orchestrator (env : CloudEnv) (form : FormData) :
    (requestPassesValidation form = false →
      (POST true env form).1.status = 400 ∧
      isJsonError (POST true env form).1.body = true ∧
      (POST true env form).2 = false) ∧
    ((POST true env form).2 = true → requestPassesValidation form = true) := by
  obtain ⟨doc, tfo, fno⟩ := form
  cases doc with
  | none => simp [POST, requestPassesValidation, strFalsy, isJsonError]
  | some d =>
    cases fno with
    | none => simp [POST, requestPassesValidation, strFalsy, isJsonError]
    | some nm =>
      by_cases hnm : nm = ""
      · simp [POST, requestPassesValidation, strFalsy, isJsonError, hnm]
      · cases tfo with
        | none => simp [POST, requestPassesValidation, strFalsy, isJsonError, hnm]
        | some t =>
          by_cases ht :
            SUPPORTED_DOC_OUTPUT_FORMATS_API.contains (jsToLowerCase t) = true
          · have hte : ¬(t = "") := by
              rintro rfl
              exact absurd ht (by decide)
            have hmem : jsToLowerCase t ∈ SUPPORTED_DOC_OUTPUT_FORMATS_API := by
              simpa using ht
            rcases hconv : performCloudConversion env d t with ⟨res, b⟩
            cases res with
            | ok r =>
              simp [POST, requestPassesValidation, strFalsy, isJsonError, hnm,
                hte, ht, hmem, hconv]
            | error m =>
              simp [POST, requestPassesValidation, strFalsy, isJsonError, hnm,
                hte, ht, hmem, hconv]
          · have hnotmem : jsToLowerCase t ∉ SUPPORTED_DOC_OUTPUT_FORMATS_API := by
              simpa using ht
            simp [POST, requestPassesValidation, strFalsy, isJsonError, hnm, ht,
              hnotmem]

/-- C6 witness: the theorem applied to a form whose target format "exe" is
not in the allow-list. -/
theorem C6_validation_before_orchestrator_witness :
    requestPassesValidation formBadFormatFx = false ∧
    (POST true goodEnvFx formBadFormatFx).1.status = 400 ∧
    isJsonError (POST true goodEnvFx formBadFormatFx).1.body = true ∧
    (POST true goodEnvFx formBadFormatFx).2 = false := by
  have h := (C6_validation_before_orchestrator goodEnvFx formBadFormatFx).1 (by decide)
  exact ⟨by decide, h⟩

/-- C7: when validation passes and the orchestrator succeeds, the endpoint
responds 200 with Content-Type drawn from the format table at the lowercased
target format (application/octet-stream when the format is not in the table)
and Content-Disposition attaching the orchestrator's result filename. -/
theorem C7_success_response (env : CloudEnv) (form : FormData) (doc : InputFile)
    (nm tfs : String) (r : ConversionResult) (b : Bool)
    (hd : form.document = some doc)
    (hn : form.inputFileName = some nm) (hn2 : ¬(nm = ""))
    (ht : form.targetFormat = some tfs) (ht2 : ¬(tfs = ""))
    (ht3 : SUPPORTED_DOC_OUTPUT_FORMATS_API.contains (jsToLowerCase tfs) = true)
    (hc : performCloudConversion env doc tfs = (.ok r, b)) :
    (POST true env form).1 =
      ⟨200,
        some ((EXT_TO_MIMETYPE (jsToLowerCase tfs)).getD "application/octet-stream"),
        some ("attachment; filename=\"" ++ r.convertedFileName ++ "\""),
        .binary r.convertedFileBuffer⟩ ∧
    (POST true env form).2 = true := by
  have hmem : jsToLowerCase tfs ∈ SUPPORTED_DOC_OUTPUT_FORMATS_API := by
    simpa using ht3
  constructor <;> simp [POST, hd, hn, ht, strFalsy, hn2, ht2, ht3, hmem, hc]

/-- C7 witness: the theorem applied to a concrete all-success run converting
"report.docx" to "pdf". -/
theorem C7_success_response_witness :
    (POST true goodEnvFx formOkFx).1 =
      ⟨200, some "application/pdf", some "attachment; filename=\"out.pdf\"",
        .binary [1, 2, 3]⟩ ∧
    (POST true goodEnvFx formOkFx).2 = true := by
  have h := C7_success_response goodEnvFx formOkFx ⟨"report.docx", [9]⟩
    "report.docx" "pdf" ⟨[1, 2, 3], "out.pdf"⟩ false
    rfl rfl (by decide) rfl (by decide) (by decide) rfl
  exact h

/-- C9: every failure escaping the orchestrator is a plain error whose
message starts with "CloudConvert processing failed: " and carries no stage
tag — only the message text remains; the endpoint surfaces it to the client
as a JSON { error, details } body with HTTP status 500. -/
theorem C9_failure_shape (env : CloudEnv) (form : FormData) (doc : InputFile)
    (nm tfs m : String) (b : Bool)
    (hd : form.document = some doc)
    (hn : form.inputFileName = some nm) (hn2 : ¬(nm = ""))
    (ht : form.targetFormat = some tfs) (ht2 : ¬(tfs = ""))
    (ht3 : SUPPORTED_DOC_OUTPUT_FORMATS_API.contains (jsToLowerCase tfs) = true)
    (hc : performCloudConversion env doc tfs = (.error m, b)) :
    (∃ rest, m = "CloudConvert processing failed: " ++ rest) ∧
    (POST true env form).1 = ⟨500, none, none, .json m none⟩ ∧
    (POST true env form).2 = true := by
  have hmem : jsToLowerCase tfs ∈ SUPPORTED_DOC_OUTPUT_FORMATS_API := by
    simpa using ht3
  refine ⟨?_, ?_, ?_⟩
  · have hp := hc
    simp only [performCloudConversion] at hp
    cases hb : (performCloudConversionBody env doc tfs).result with
    | ok r => rw [hb] at hp; simp at hp
    | error e =>
      rw [hb] at hp
      simp at hp
      exact ⟨e.msg, hp.1.symm⟩
  · simp [POST, hd, hn, ht, strFalsy, hn2, ht2, ht3, hmem, hc]
  · simp [POST, hd, hn, ht, strFalsy, hn2, ht2, ht3, hmem, hc]

/-- C9 witness: the theorem applied to the concrete upload-failure run. -/
theorem C9_failure_shape_witness :
    (POST true uploadFailEnvFx formOkFx).1 =
      ⟨500, none, none,
        .json "CloudConvert processing failed: socket hang up" none⟩ ∧
    (POST true uploadFailEnvFx formOkFx).2 = true := by
  have h := C9_failure_shape uploadFailEnvFx formOkFx ⟨"report.docx", [9]⟩
    "report.docx" "pdf" "CloudConvert processing failed: socket hang up" true
    rfl rfl (by decide) rfl (by decide) (by decide) rfl
  exact ⟨h.2.1, h.2.2⟩

/-- C10: every format in the endpoint's allow-list has an entry in the
MIME-type table, so for any request passing validation the Content-Type
lookup at the lowercased target format succeeds and the
application/octet-stream default is unreachable. -/
theorem C10_allowlist_covered_by_mime_table :
    (∀ s ∈ SUPPORTED_DOC_OUTPUT_FORMATS_API, (EXT_TO_MIMETYPE s).isSome = true) ∧
    (∀ t : String,
      SUPPORTED_DOC_OUTPUT_FORMATS_API.contains (jsToLowerCase t) = true →
      (EXT_TO_MIMETYPE (jsToLowerCase t)).isSome = true) := by
  have hall : ∀ s ∈ SUPPORTED_DOC_OUTPUT_FORMATS_API,
      (EXT_TO_MIMETYPE s).isSome = true := by
    intro s hs
    simp [SUPPORTED_DOC_OUTPUT_FORMATS_API] at hs
    rcases hs with h | h | h | h | h | h | h | h <;> subst h <;> rfl
  refine ⟨hall, fun t ht => ?_⟩
  have hmem : jsToLowerCase t ∈ SUPPORTED_DOC_OUTPUT_FORMATS_API := by
    simpa using ht
  exact hall _ hmem

/-- C10 witness: the theorem applied to the allow-listed format "pdf". -/
theorem C10_allowlist_covered_by_mime_table_witness :
    ("pdf" ∈ SUPPORTED_DOC_OUTPUT_FORMATS_API) ∧
    (EXT_TO_MIMETYPE "pdf").isSome = true := by
  have hm : "pdf" ∈ SUPPORTED_DOC_OUTPUT_FORMATS_API := by decide
  exact ⟨hm, C10_allowlist_covered_by_mime_table.1 "pdf" hm⟩

end ConvDoc
